import Mathlib

/-!
Shallow embedding of the MicroCloud charm (`src/charm.py`) and proofs about
its peer-coordination logic.

Modelling conventions:
* Python dicts holding peer/relation data are association lists
  `List (String × PValue)`; a stored value is either a string (`PValue.str`)
  or some non-string object (`PValue.other`), mirroring the `isinstance(value, str)`
  check in `get_peer_data_str`.
* External commands (`subprocess.run` with `check=True` and a `timeout`) are
  abstracted by their observable outcome `CmdOutcome`: success, non-zero exit
  (raises `CalledProcessError`), or deadline exceeded (raises `TimeoutExpired`).
  The one unchecked, deadline-free call (`lxc list` in `microcloud_remove`) is
  modelled precisely by `subprocess_run` below.
* Snap installation (`snap_install_microcloud`, `resource_sideload`) is an
  out-of-scope collaborator; it issues no clustering command and is abstracted
  to a success flag where a handler calls it.
* Unit statuses carry a `Msg` tag, one constructor per distinct message
  template in the source, so different failure messages stay distinguishable.
-/

/-- A value stored in a peer relation data bag: a string, or any non-string
object (the source checks `isinstance(value, str)`). -/
inductive PValue where
  | str (s : String)
  | other
deriving DecidableEq

/-- A Python dict with string keys, as an association list. -/
abbrev PyDict (β : Type) := List (String × β)

/-- `d.get(key)` / `d.get(key, default)=none` lookup on an association list. -/
def dictGet {β : Type} : PyDict β → String → Option β
  | [], _ => none
  | (k, v) :: t, key => if k = key then some v else dictGet t key

/-- `d[key] = v` on an association list. -/
def dictSet {β : Type} (d : PyDict β) (key : String) (v : β) : PyDict β :=
  (key, v) :: d.filter (fun p => p.1 != key)

/-- A single unit's relation data bag. -/
abbrev PeerBag := PyDict PValue

/-- `MaasMicroCloudCharm.get_peer_data_str`: returns `""` when the cluster
relation is absent, the bag argument is falsy, the key is falsy (empty),
the key is missing, or the stored value is not a string; otherwise returns
the stored string.  Total by construction (the source never raises here). -/
def get_peer_data_str (hasPeers bagPresent : Bool) (data : PeerBag)
    (key : String) : String :=
  if !hasPeers || !bagPresent || key = "" then ""
  else
    match dictGet data key with
    | some (.str s) => s
    | some .other => ""
    | none => ""

/-- `MaasMicroCloudCharm.set_peer_data_str`: writes `value` under `key` unless
the relation/bag/key is falsy or the value read back by `get_peer_data_str`
already equals `value` (then the bag is left untouched). -/
def set_peer_data_str (hasPeers bagPresent : Bool) (data : PeerBag)
    (key value : String) : PeerBag :=
  if !hasPeers || !bagPresent || key = "" then data
  else if get_peer_data_str hasPeers bagPresent data key = value then data
  else dictSet data key (.str value)

/-- The external commands the orchestrator can issue (clustering commands
only; snap-store operations are out of scope, see module docstring). -/
inductive Cmd where
  | lxcClusterList
  | microcloudInit
  | microcephEnableRgw
  | microcloudAdd
  | lxcList
  | lxcClusterRemove
  | microcephClusterRemove
  | microovnClusterRemove
  | microcloudClusterRemove
deriving DecidableEq

/-- Outcome of a `subprocess.run(..., check=True, timeout=600)` call:
success, non-zero exit (`CalledProcessError`), or `TimeoutExpired`. -/
inductive CmdOutcome where
  | success
  | fail
  | timeout
deriving DecidableEq

/-- One constructor per distinct status-message template in the source. -/
inductive Msg where
  | notJoinedCluster        -- "This unit has not joined the cluster yet"
  | timedOutCheckingStatus  -- "This unit timed out checking its clustered status"
  | failedToInitialize      -- "Failed to initialize MicroCloud"
  | failedToJoinCluster     -- "This unit has failed to join the cluster"
  | leaderWaitToBootstrap   -- "Leader needs to wait for all units to be ready to bootstrap"
  | unitWaitToBootstrap     -- "Unit needs to wait for all units to be ready to bootstrap"
  | initializingMC          -- "Initializing MicroCloud"
  | addingNode              -- "Adding node to MicroCloud"
  | removingNode            -- "Removing node from MicroCloud"
  | failedToRun (c : Cmd)   -- f-string 'Failed to run "{e.cmd}": ...'
  | timeoutRunning (c : Cmd)  -- f-string 'Timeout exceeded while running "{e.cmd}"'
  | containsInstances       -- "This Microcloud unit contains instances. You can't remove it."
  | failedToRemoveNode      -- f-string "Failed to remove {node} from the MicroCloud cluster: {e}"
  | failedToApplyConfig     -- "Failed to apply some configuration change(s): ..."
deriving DecidableEq

/-- The four Juju unit statuses the charm sets (`unit_active` carries no
message; the others do). -/
inductive UnitStatus where
  | active
  | waiting (m : Msg)
  | blocked (m : Msg)
  | maintenance (m : Msg)
deriving DecidableEq

/-- A charm configuration value (the charm's options are strings and booleans). -/
inductive ConfigVal where
  | s (v : String)
  | b (v : Bool)
deriving DecidableEq

/-- A charm configuration, as the dict the source iterates over. -/
abbrev Config := PyDict ConfigVal

/-- `MaasMicroCloudCharm.config_changed`: the sub-dict of `newC` whose keys are
absent from `oldC` or bound to a different value there. -/
def config_changed (newC oldC : Config) : Config :=
  newC.filter (fun kv =>
    match dictGet oldC kv.1 with
    | none => true
    | some v => decide (v ≠ kv.2))

/-- `MaasMicroCloudCharm.config_is_valid`: computes the changed configs (for
logging) and unconditionally returns `True`. -/
def config_is_valid (newC oldC : Config) : Bool :=
  let _changed := config_changed newC oldC
  true

/-- `"snap-channel-…" in changed` checks of `_on_charm_config_changed`. -/
def snap_channel_changed (changed : Config) : Bool :=
  (dictGet changed "snap-channel-lxd").isSome
    || (dictGet changed "snap-channel-microcloud").isSome
    || (dictGet changed "snap-channel-microceph").isSome
    || (dictGet changed "snap-channel-microovn").isSome

/-- Which path `_on_charm_config_changed` took. -/
inductive ConfigOutcome where
  | invalidConfig   -- early return because `config_is_valid` was false
  | noChanges       -- `config_changed()` was empty
  | applied         -- changes applied (snap refresh ran or was not needed)
  | applyFailed     -- snap refresh raised RuntimeError: blocked + defer
deriving DecidableEq

/-- Result of `_on_charm_config_changed`. -/
structure ConfigOut where
  outcome : ConfigOutcome
  status : Option UnitStatus
  deferred : Bool
deriving DecidableEq

/-- `MaasMicroCloudCharm._on_charm_config_changed`.  `snapOk` abstracts whether
`snap_install_microcloud` succeeds (it raises `RuntimeError` otherwise). -/
def on_charm_config_changed (newC oldC : Config) (snapOk : Bool) : ConfigOut :=
  if !(config_is_valid newC oldC) then ⟨.invalidConfig, none, false⟩
  else
    let changed := config_changed newC oldC
    if changed = [] then ⟨.noChanges, none, false⟩
    else if snap_channel_changed changed then
      if snapOk then ⟨.applied, none, false⟩
      else ⟨.applyFailed, some (.blocked .failedToApplyConfig), true⟩
    else ⟨.applied, none, false⟩

/-- Which path `_on_charm_install` took. -/
inductive InstallOutcome where
  | invalidConfig    -- early return because `config_is_valid` was false
  | installed        -- snap install succeeded, side-load applied
  | deferredFailure  -- snap install raised RuntimeError: deferred
deriving DecidableEq

/-- Result of `_on_charm_install`. -/
structure InstallOut where
  outcome : InstallOutcome
  deferred : Bool
deriving DecidableEq

/-- `MaasMicroCloudCharm._on_charm_install`.  Snap installation and resource
side-loading are out-of-scope collaborators abstracted by `snapOk`. -/
def on_charm_install (newC oldC : Config) (snapOk : Bool) : InstallOut :=
  if !(config_is_valid newC oldC) then ⟨.invalidConfig, false⟩
  else if snapOk then ⟨.installed, false⟩
  else ⟨.deferredFailure, true⟩

/-- Inputs read by `_on_charm_start`: the other units of the `cluster` peer
relation with their bags, this unit's own bag, the leadership flag, and
`self.app.planned_units()`.  The handler dereferences `self.peers.units`
unconditionally, so it is modelled with the peer relation present. -/
structure StartState where
  peerUnits : List (Nat × PeerBag)
  ownBag : PeerBag
  isLeader : Bool
  plannedUnits : Nat
deriving DecidableEq

/-- The `one_unit_clustered` loop of `_on_charm_start`: some other unit's bag
has `"clustered"` bound to the string `"True"`. -/
def one_unit_clustered (peerUnits : List (Nat × PeerBag)) : Bool :=
  peerUnits.any (fun u => decide (dictGet u.2 "clustered" = some (.str "True")))

/-- The `new_peers` list of `_on_charm_start`, folded with `all`: every other
unit's bag has `"clustered"` bound to the string `"False"`. -/
def all_new_peers (peerUnits : List (Nat × PeerBag)) : Bool :=
  peerUnits.all (fun u => decide (dictGet u.2 "clustered" = some (.str "False")))

/-- The four-way guard of `_on_charm_start` deciding to run `microcloud_init`:
leader, own flag `"False"`, every other peer `"False"`, and
`planned_units == len(peers.units) + 1`. -/
def init_condition (s : StartState) : Bool :=
  s.isLeader
    && decide (get_peer_data_str true true s.ownBag "clustered" = "False")
    && all_new_peers s.peerUnits
    && decide (s.plannedUnits = s.peerUnits.length + 1)

/-- Environment for one `_on_charm_start` evaluation: the outcomes of the
commands it may run. -/
structure StartEnv where
  lxcClusterList : CmdOutcome
  microcloudInit : CmdOutcome
  microcephEnableRgw : CmdOutcome
deriving DecidableEq

/-- Result of a helper call such as `microcloud_init` / `microcloud_add`:
commands issued, last status set, and whether `RuntimeError` was raised. -/
structure CallOut where
  commands : List Cmd
  status : Option UnitStatus
  raised : Bool
deriving DecidableEq

/-- `MaasMicroCloudCharm.microcloud_init`: sets maintenance status, runs
`microcloud init --auto` then `microceph enable rgw` (both checked, with
timeout); any failure sets a blocked status and raises `RuntimeError`. -/
def microcloud_init (env : StartEnv) : CallOut :=
  match env.microcloudInit with
  | .success =>
    match env.microcephEnableRgw with
    | .success =>
      ⟨[.microcloudInit, .microcephEnableRgw], some (.maintenance .initializingMC), false⟩
    | .fail =>
      ⟨[.microcloudInit, .microcephEnableRgw],
        some (.blocked (.failedToRun .microcephEnableRgw)), true⟩
    | .timeout =>
      ⟨[.microcloudInit, .microcephEnableRgw],
        some (.blocked (.timeoutRunning .microcephEnableRgw)), true⟩
  | .fail => ⟨[.microcloudInit], some (.blocked (.failedToRun .microcloudInit)), true⟩
  | .timeout => ⟨[.microcloudInit], some (.blocked (.timeoutRunning .microcloudInit)), true⟩

/-- `MaasMicroCloudCharm.microcloud_add`: sets maintenance status, runs
`microcloud add --auto`; failure sets a blocked status and raises. -/
def microcloud_add (env : CmdOutcome) : CallOut :=
  match env with
  | .success => ⟨[.microcloudAdd], some (.maintenance .addingNode), false⟩
  | .fail => ⟨[.microcloudAdd], some (.blocked (.failedToRun .microcloudAdd)), true⟩
  | .timeout => ⟨[.microcloudAdd], some (.blocked (.timeoutRunning .microcloudAdd)), true⟩

/-- Observable result of one handler evaluation: commands issued (in order),
final unit status (`none` = untouched), this unit's own bag afterwards, and
whether `event.defer()` was called. -/
structure HandlerOut where
  commands : List Cmd
  status : Option UnitStatus
  ownBag : PeerBag
  deferred : Bool
deriving DecidableEq

/-- The body of `_on_charm_start` after the pending-config-change delegation:
if some peer is already clustered, probe `lxc cluster list`; else initialize
when `init_condition` holds; else wait (with a 10 s sleep) and defer. -/
def on_charm_start_main (s : StartState) (env : StartEnv) : HandlerOut :=
  if one_unit_clustered s.peerUnits then
    match env.lxcClusterList with
    | .success =>
      ⟨[.lxcClusterList], some .active,
        set_peer_data_str true true s.ownBag "clustered" "True", false⟩
    | .fail => ⟨[.lxcClusterList], some (.waiting .notJoinedCluster), s.ownBag, true⟩
    | .timeout => ⟨[.lxcClusterList], some (.blocked .timedOutCheckingStatus), s.ownBag, false⟩
  else if init_condition s then
    let r := microcloud_init env
    if r.raised then ⟨r.commands, some (.blocked .failedToInitialize), s.ownBag, false⟩
    else
      ⟨r.commands, some .active,
        set_peer_data_str true true s.ownBag "clustered" "True", false⟩
  else if s.isLeader then ⟨[], some (.waiting .leaderWaitToBootstrap), s.ownBag, true⟩
  else ⟨[], some (.waiting .unitWaitToBootstrap), s.ownBag, true⟩

/-- `MaasMicroCloudCharm._on_charm_start`: first delegates to
`_on_charm_config_changed` when `config_changed()` is non-empty (that handler
issues no clustering command and every subsequent path of the start body
overwrites the status, so only its possible `event.defer()` survives), then
runs the body above. -/
def on_charm_start (s : StartState) (env : StartEnv) (newC oldC : Config)
    (snapOk : Bool) : HandlerOut :=
  let cfgDeferred :=
    if config_changed newC oldC = [] then false
    else (on_charm_config_changed newC oldC snapOk).deferred
  let m := on_charm_start_main s env
  ⟨m.commands, m.status, m.ownBag, cfgDeferred || m.deferred⟩

/-- `MaasMicroCloudCharm._on_update_status`: probe `lxc cluster list`; on
success mark own bag clustered and go active; on failure / timeout block. -/
def on_update_status (hasPeers : Bool) (ownBag : PeerBag) (env : CmdOutcome) :
    HandlerOut :=
  match env with
  | .success =>
    ⟨[.lxcClusterList], some .active,
      set_peer_data_str hasPeers true ownBag "clustered" "True", false⟩
  | .fail => ⟨[.lxcClusterList], some (.blocked .failedToJoinCluster), ownBag, false⟩
  | .timeout => ⟨[.lxcClusterList], some (.blocked .timedOutCheckingStatus), ownBag, false⟩

/-- `MaasMicroCloudCharm._on_cluster_relation_created`: write own
`clustered = "False"`. -/
def on_cluster_relation_created (hasPeers : Bool) (ownBag : PeerBag) : PeerBag :=
  set_peer_data_str hasPeers true ownBag "clustered" "False"

/-- `MaasMicroCloudCharm._on_cluster_relation_joined`: run `microcloud add
--auto` only when leader, own flag reads `"True"`, and the joining unit is not
this unit; the raised `RuntimeError` on failure is caught and logged. -/
def on_cluster_relation_joined (hasPeers : Bool) (ownBag : PeerBag)
    (isLeader : Bool) (eventUnit selfUnit : Nat) (env : CmdOutcome) : HandlerOut :=
  if isLeader
      && decide (get_peer_data_str hasPeers true ownBag "clustered" = "True")
      && eventUnit != selfUnit then
    let r := microcloud_add env
    ⟨r.commands, r.status, ownBag, false⟩
  else ⟨[], none, ownBag, false⟩

/-- Behaviour of an external process: it exits with a return code and captured
stdout, or it is still running when the configured deadline (if any) expires. -/
inductive ProcBehavior where
  | exited (returncode : Nat) (stdout : String)
  | runsPastDeadline
deriving DecidableEq

/-- What a `subprocess.run` call produces at its call site. -/
inductive RunRes where
  | completed (returncode : Nat) (stdout : String)
  | raisedCalledProcessError (returncode : Nat)
  | raisedTimeoutExpired
deriving DecidableEq

/-- `subprocess.run` semantics: `CalledProcessError` is raised only with
`check=True` and a non-zero exit; `TimeoutExpired` only when a `timeout` was
configured; with no timeout a process that never finishes blocks the caller
forever (`none`). -/
def subprocess_run (check : Bool) (tmo : Option Nat) (b : ProcBehavior) :
    Option RunRes :=
  match b with
  | .exited code out =>
    some (if check && code != 0 then .raisedCalledProcessError code else .completed code out)
  | .runsPastDeadline =>
    match tmo with
    | some _ => some .raisedTimeoutExpired
    | none => none

/-- How a `microcloud_remove` evaluation ends. -/
inductive StopExc where
  | runtimeError     -- the `raise RuntimeError` paths
  | jsonDecodeError  -- `json.loads` raised; not caught by the except clauses
deriving DecidableEq

/-- Termination mode of `microcloud_remove`. -/
inductive ROutcome where
  | returned
  | raised (e : StopExc)
  | hangs
deriving DecidableEq

/-- Observable result of `microcloud_remove`. -/
structure RemoveOut where
  commands : List Cmd
  status : Option UnitStatus
  outcome : ROutcome
deriving DecidableEq

/-- Environment of one `microcloud_remove` evaluation: the behaviour of the
unchecked `lxc list` call and the outcomes of the four checked removal
commands. -/
structure RemoveEnv where
  listBehavior : ProcBehavior
  lxcClusterRemove : CmdOutcome
  microcephRemove : CmdOutcome
  microovnRemove : CmdOutcome
  microcloudRemove : CmdOutcome
deriving DecidableEq

/-- The outcome the environment assigns to each checked removal command. -/
def envOf (env : RemoveEnv) : Cmd → CmdOutcome
  | .lxcClusterRemove => env.lxcClusterRemove
  | .microcephClusterRemove => env.microcephRemove
  | .microovnClusterRemove => env.microovnRemove
  | .microcloudClusterRemove => env.microcloudRemove
  | _ => .success

/-- One checked removal command inside the second `try` block of
`microcloud_remove`: on success execution continues with the command appended
to the issued list; on failure / timeout a blocked status is set and
`RuntimeError` raised, ending the block. -/
def run_checked (env : RemoveEnv) (c : Cmd) (acc : List Cmd) :
    Except RemoveOut (List Cmd) :=
  match envOf env c with
  | .success => .ok (acc ++ [c])
  | .fail =>
    .error ⟨acc ++ [c], some (.blocked (.failedToRun c)), .raised .runtimeError⟩
  | .timeout =>
    .error ⟨acc ++ [c], some (.blocked (.timeoutRunning c)), .raised .runtimeError⟩

/-- The removal sequence of `microcloud_remove` after the safety check:
`lxc cluster remove`, then `microceph cluster remove` if the stored
`snap-channel-microceph` is truthy (non-empty), then `microovn cluster remove`
if the stored `snap-channel-microovn` is truthy, then
`microcloud cluster remove`.  On entry the status is
`MaintenanceStatus("Removing node from MicroCloud")`; it survives unless a
step fails. -/
def remove_phase (env : RemoveEnv) (cephChannel ovnChannel : String) : RemoveOut :=
  match run_checked env .lxcClusterRemove [] with
  | .error r => r
  | .ok acc =>
    match (if cephChannel ≠ "" then run_checked env .microcephClusterRemove acc
           else .ok acc) with
    | .error r => r
    | .ok acc =>
      match (if ovnChannel ≠ "" then run_checked env .microovnClusterRemove acc
             else .ok acc) with
      | .error r => r
      | .ok acc =>
        match run_checked env .microcloudClusterRemove acc with
        | .error r => r
        | .ok acc => ⟨acc, some (.maintenance .removingNode), .returned⟩

/-- The planned removal order (specification-side restatement of the fixed
step order of §4.3 of the spec, for comparison with `remove_phase`). -/
def removal_steps (cephChannel ovnChannel : String) : List Cmd :=
  [Cmd.lxcClusterRemove]
    ++ (if cephChannel ≠ "" then [Cmd.microcephClusterRemove] else [])
    ++ (if ovnChannel ≠ "" then [Cmd.microovnClusterRemove] else [])
    ++ [Cmd.microcloudClusterRemove]

/-- Run commands strictly in order, stopping at the first failure, which turns
the status blocked and raises; with no failure all commands run and the
maintenance status set on entry to the phase survives. -/
def seqRun (env : RemoveEnv) : List Cmd → RemoveOut
  | [] => ⟨[], some (.maintenance .removingNode), .returned⟩
  | c :: rest =>
    match envOf env c with
    | .success =>
      let r := seqRun env rest
      ⟨c :: r.commands, r.status, r.outcome⟩
    | .fail => ⟨[c], some (.blocked (.failedToRun c)), .raised .runtimeError⟩
    | .timeout => ⟨[c], some (.blocked (.timeoutRunning c)), .raised .runtimeError⟩

/-- `MaasMicroCloudCharm.microcloud_remove`.  The safety check runs
`lxc list --all-projects --format=json` without `check=True` and without a
timeout, parses its stdout with `json.loads` (modelled by the external `parse`
oracle, yielding the instances' `location` fields, `none` on a parse error),
and refuses the removal if any location equals the node being removed.
The stored snap-channel strings gate the optional subsystem steps; the model
assumes both keys are present in `_stored.config` (they are written by
`snap_install_microcloud` before any unit can be clustered). -/
def microcloud_remove (node : String) (parse : String → Option (List String))
    (env : RemoveEnv) (cephChannel ovnChannel : String) : RemoveOut :=
  match subprocess_run false none env.listBehavior with
  | none => ⟨[.lxcList], none, .hangs⟩
  | some (.raisedCalledProcessError _) =>
    ⟨[.lxcList], some (.blocked .failedToRemoveNode), .raised .runtimeError⟩
  | some .raisedTimeoutExpired =>
    ⟨[.lxcList], some (.blocked (.timeoutRunning .lxcList)), .raised .runtimeError⟩
  | some (.completed _ out) =>
    match parse out with
    | none => ⟨[.lxcList], none, .raised .jsonDecodeError⟩
    | some locations =>
      if locations.any (fun loc => loc == node) then
        ⟨[.lxcList], some (.blocked .containsInstances), .returned⟩
      else
        let r := remove_phase env cephChannel ovnChannel
        ⟨.lxcList :: r.commands, r.status, r.outcome⟩

/-- Observable result of `_on_charm_stop`: commands, final status, an
exception escaping the handler (only non-`RuntimeError` ones can), and whether
the handler blocks forever on the unchecked listing call. -/
structure StopOut where
  commands : List Cmd
  status : Option UnitStatus
  exc : Option StopExc
  hangs : Bool

/-- `MaasMicroCloudCharm._on_charm_stop`: runs `microcloud_remove` only when
own flag reads `"True"`; catches (and only logs) `RuntimeError`; anything else
raised inside propagates. -/
def on_charm_stop (hasPeers : Bool) (ownBag : PeerBag) (node : String)
    (parse : String → Option (List String)) (env : RemoveEnv)
    (cephChannel ovnChannel : String) : StopOut :=
  if get_peer_data_str hasPeers true ownBag "clustered" = "True" then
    let r := microcloud_remove node parse env cephChannel ovnChannel
    match r.outcome with
    | .hangs => ⟨r.commands, r.status, none, true⟩
    | .raised .runtimeError => ⟨r.commands, r.status, none, false⟩
    | .raised .jsonDecodeError => ⟨r.commands, r.status, some .jsonDecodeError, false⟩
    | .returned => ⟨r.commands, r.status, none, false⟩
  else ⟨[], none, none, false⟩

/-- One delivered trigger, carrying the per-evaluation inputs that are not the
evolving own bag (peer views, leadership, command outcomes, configs). -/
inductive Event where
  | relationCreated (hasPeers : Bool)
  | charmStart (peerUnits : List (Nat × PeerBag)) (isLeader : Bool)
      (plannedUnits : Nat) (env : StartEnv) (newC oldC : Config) (snapOk : Bool)
  | updateStatus (hasPeers : Bool) (env : CmdOutcome)
  | relationJoined (hasPeers isLeader : Bool) (eventUnit selfUnit : Nat)
      (env : CmdOutcome)
  | charmStop (hasPeers : Bool) (node : String)
      (parse : String → Option (List String)) (env : RemoveEnv)
      (cephChannel ovnChannel : String)

/-- Whether an event is the `cluster_relation_created` trigger. -/
def Event.isRelationCreated : Event → Bool
  | .relationCreated _ => true
  | _ => false

/-- How one delivered event transforms this unit's own relation data bag
(the only durable state the handlers write). -/
def stepOwnBag (bag : PeerBag) : Event → PeerBag
  | .relationCreated hp => on_cluster_relation_created hp bag
  | .charmStart pu lead pl env nc oc ok =>
    (on_charm_start ⟨pu, bag, lead, pl⟩ env nc oc ok).ownBag
  | .updateStatus hp env => (on_update_status hp bag env).ownBag
  | .relationJoined hp lead eu su env =>
    (on_cluster_relation_joined hp bag lead eu su env).ownBag
  | .charmStop _ _ _ _ _ _ => bag

-- Sanity checks on the accessors (scratch examples, claim-independent).
example : get_peer_data_str true true [("clustered", .str "True")] "clustered" = "True" := by
  decide

example : get_peer_data_str true true [("clustered", .other)] "clustered" = "" := by
  decide

example :
    set_peer_data_str true true [("clustered", .str "True")] "clustered" "True"
      = [("clustered", .str "True")] := by
  decide

theorem dictGet_dictSet_self {β : Type} (d : PyDict β) (key : String) (v : β) :
    dictGet (dictSet d key v) key = some v := by
  simp [dictSet, dictGet]

/-- Writing a non-empty string under a non-empty key makes it readable back. -/
theorem dictGet_set_peer_str (bag : PeerBag) (k v : String) (hk : k ≠ "")
    (hv : v ≠ "") :
    dictGet (set_peer_data_str true true bag k v) k = some (.str v) := by
  unfold set_peer_data_str
  by_cases hold : get_peer_data_str true true bag k = v
  · unfold get_peer_data_str at hold
    rcases hget : dictGet bag k with _ | pv
    · simp [hget, hk] at hold
      exact absurd hold.symm hv
    · cases pv with
      | str s =>
        simp [hget, hk] at hold
        simp [hk, hget, hold, get_peer_data_str]
      | other =>
        simp [hget, hk] at hold
        exact absurd hold.symm hv
  · simp [hk, hold, dictGet_dictSet_self]

/-- A write that would store the value already read back is skipped. -/
theorem set_peer_noop (hp bp : Bool) (d : PeerBag) (key value : String)
    (h : dictGet d key = some (.str value)) :
    set_peer_data_str hp bp d key value = d := by
  cases hp <;> cases bp <;> by_cases hkey : key = "" <;>
    simp_all [set_peer_data_str, get_peer_data_str]

/-- Only a `"False"` write can leave `"False"` in the bag: if the flag reads
`"False"` after a write of `v`, either `v = "False"` or it already did. -/
theorem set_peer_false_inv (hp bp : Bool) (d : PeerBag) (key v : String)
    (h : dictGet (set_peer_data_str hp bp d key v) key = some (.str "False")) :
    v = "False" ∨ dictGet d key = some (.str "False") := by
  unfold set_peer_data_str at h
  by_cases hg : (!hp || !bp || key = "" : Bool) = true
  · rw [if_pos hg] at h
    exact Or.inr h
  · rw [if_neg hg] at h
    by_cases hold : get_peer_data_str hp bp d key = v
    · rw [if_pos hold] at h
      exact Or.inr h
    · rw [if_neg hold, dictGet_dictSet_self] at h
      injection h with h
      injection h with h
      exact Or.inl h

/-- Claim C8 (confirmed): `get_peer_data_str` is a total function (so it never
raises) returning `""` whenever the relation is absent, the bag argument is
falsy, the key is falsy, the key is unbound, or the bound value is not a
string; and `set_peer_data_str` leaves the bag unchanged whenever the stored
value is already the string being written. -/
theorem peer_data_get_total_set_noop :
    (∀ (hp bp : Bool) (d : PeerBag) (key : String),
        hp = false ∨ bp = false ∨ key = "" ∨ dictGet d key = none ∨
          dictGet d key = some .other →
        get_peer_data_str hp bp d key = "")
  ∧ (∀ (hp bp : Bool) (d : PeerBag) (key value : String),
        dictGet d key = some (.str value) →
        set_peer_data_str hp bp d key value = d) := by
  constructor
  · intro hp bp d key h
    rcases h with h | h | h | h | h <;>
      cases hp <;> cases bp <;> by_cases hkey : key = "" <;>
        simp_all [get_peer_data_str]
  · intro hp bp d key value h
    cases hp <;> cases bp <;> by_cases hkey : key = "" <;>
      simp_all [set_peer_data_str, get_peer_data_str]

theorem peer_data_get_total_set_noop_witness :
    get_peer_data_str false true [] "k" = "" ∧
      set_peer_data_str true true [("k", PValue.str "v")] "k" "v"
        = [("k", PValue.str "v")] :=
  ⟨peer_data_get_total_set_noop.1 false true [] "k" (Or.inl rfl),
   peer_data_get_total_set_noop.2 true true [("k", PValue.str "v")] "k" "v" (by decide)⟩

/-- Claim C10 (confirmed): `config_is_valid` returns `True` on every input, so
the invalid-configuration early return of `_on_charm_install` and
`_on_charm_config_changed` is never taken. -/
theorem config_always_valid_no_reject (newC oldC : Config) (snapOk : Bool) :
    config_is_valid newC oldC = true
      ∧ (on_charm_install newC oldC snapOk).outcome ≠ .invalidConfig
      ∧ (on_charm_config_changed newC oldC snapOk).outcome ≠ .invalidConfig := by
  refine ⟨rfl, ?_, ?_⟩
  · unfold on_charm_install config_is_valid
    cases snapOk <;> simp
  · by_cases h1 : config_changed newC oldC = [] <;>
      by_cases h2 : snap_channel_changed (config_changed newC oldC) = true <;>
        cases snapOk <;>
          simp [on_charm_config_changed, config_is_valid, h1, h2]

/-- `microcloud_init` always issues the init command first. -/
theorem microcloud_init_mem (env : StartEnv) :
    Cmd.microcloudInit ∈ (microcloud_init env).commands := by
  rcases env with ⟨l, i, r⟩
  cases i <;> cases r <;> simp [microcloud_init]

/-- `microcloud_init` never issues the cluster-listing probe. -/
theorem microcloud_init_no_probe (env : StartEnv) :
    Cmd.lxcClusterList ∉ (microcloud_init env).commands := by
  rcases env with ⟨l, i, r⟩
  cases i <;> cases r <;> simp [microcloud_init]

/-- `microcloud_init` raises exactly when one of its two commands fails. -/
theorem microcloud_init_raised (env : StartEnv) :
    (microcloud_init env).raised
      = (env.microcloudInit != .success || env.microcephEnableRgw != .success) := by
  rcases env with ⟨l, i, r⟩
  cases i <;> cases r <;> simp [microcloud_init]

/-- If every peer flag reads `"False"`, no peer flag reads `"True"`. -/
theorem init_cond_no_clustered (s : StartState) (h : init_condition s = true) :
    one_unit_clustered s.peerUnits = false := by
  unfold init_condition at h
  simp only [Bool.and_eq_true, decide_eq_true_eq] at h
  obtain ⟨⟨⟨_, _⟩, hall⟩, _⟩ := h
  unfold all_new_peers at hall
  rw [List.all_eq_true] at hall
  by_cases hone : one_unit_clustered s.peerUnits = true
  · exfalso
    unfold one_unit_clustered at hone
    rw [List.any_eq_true] at hone
    obtain ⟨u, hu, hdu⟩ := hone
    have hf := hall u hu
    simp only [decide_eq_true_eq] at hdu hf
    rw [hf] at hdu
    simp at hdu
  · simpa using hone

/-- The projections of `on_charm_start` agree with its body except for the
deferral bit contributed by the config-change delegation. -/
theorem on_charm_start_proj (s : StartState) (env : StartEnv)
    (newC oldC : Config) (snapOk : Bool) :
    (on_charm_start s env newC oldC snapOk).commands
        = (on_charm_start_main s env).commands
      ∧ (on_charm_start s env newC oldC snapOk).status
        = (on_charm_start_main s env).status
      ∧ (on_charm_start s env newC oldC snapOk).ownBag
        = (on_charm_start_main s env).ownBag := by
  simp [on_charm_start]

/-- Claim C7 (confirmed): the `cluster_relation_joined` handler runs
`microcloud add --auto` exactly when the evaluating unit is leader, its own
`clustered` flag reads `"True"`, and the joining unit is a different unit; in
particular a non-leader never runs it. -/
theorem join_add_gated (hp : Bool) (bag : PeerBag) (lead : Bool)
    (eu su : Nat) (env : CmdOutcome) :
    Cmd.microcloudAdd ∈ (on_cluster_relation_joined hp bag lead eu su env).commands
      ↔ lead = true ∧ get_peer_data_str hp true bag "clustered" = "True" ∧ eu ≠ su := by
  have hadd : (microcloud_add env).commands = [Cmd.microcloudAdd] := by
    cases env <;> rfl
  unfold on_cluster_relation_joined
  by_cases hl : lead <;>
    by_cases hg : get_peer_data_str hp true bag "clustered" = "True" <;>
      by_cases he : eu = su <;>
        simp [hl, hg, he, hadd]

/-- A bag whose `clustered` flag is the string `"True"`. -/
def bagTrue : PeerBag := [("clustered", PValue.str "True")]

/-- A bag whose `clustered` flag is the string `"False"`. -/
def bagFalse : PeerBag := [("clustered", PValue.str "False")]

/-- Start-state with one peer already clustered (2 planned units, leader). -/
def sClusteredPeer : StartState := ⟨[(1, bagTrue)], bagFalse, true, 2⟩

/-- Environment in which every command succeeds. -/
def envAllSuccess : StartEnv := ⟨.success, .success, .success⟩

/-- Claim C2 (confirmed): on the start trigger and the periodic status
trigger alike, whenever the `lxc cluster list` probe runs and succeeds the
unit's own `clustered` value is `"True"` afterwards (stale `"False"` is
corrected) and the reported status is Active, whatever the bag said before. -/
theorem probe_success_already_clustered :
    (∀ (s : StartState) (env : StartEnv) (newC oldC : Config) (snapOk : Bool),
        env.lxcClusterList = .success →
        Cmd.lxcClusterList ∈ (on_charm_start s env newC oldC snapOk).commands →
        (on_charm_start s env newC oldC snapOk).status = some .active ∧
          dictGet (on_charm_start s env newC oldC snapOk).ownBag "clustered"
            = some (.str "True"))
  ∧ (∀ bag : PeerBag,
        (on_update_status true bag .success).status = some .active ∧
          dictGet (on_update_status true bag .success).ownBag "clustered"
            = some (.str "True")) := by
  constructor
  · intro s env newC oldC snapOk hs hmem
    obtain ⟨hc, hst, hb⟩ := on_charm_start_proj s env newC oldC snapOk
    rw [hc] at hmem
    rw [hst, hb]
    by_cases h1 : one_unit_clustered s.peerUnits = true
    · unfold on_charm_start_main
      rw [if_pos h1, hs]
      exact ⟨rfl, dictGet_set_peer_str s.ownBag "clustered" "True" (by decide) (by decide)⟩
    · exfalso
      unfold on_charm_start_main at hmem
      rw [if_neg h1] at hmem
      by_cases h2 : init_condition s = true
      · rw [if_pos h2] at hmem
        have := microcloud_init_no_probe env
        by_cases hr : (microcloud_init env).raised = true <;>
          simp [hr] at hmem <;> exact this hmem
      · rw [if_neg h2] at hmem
        by_cases hl : s.isLeader = true <;> simp [hl] at hmem
  · intro bag
    exact ⟨rfl, dictGet_set_peer_str bag "clustered" "True" (by decide) (by decide)⟩

theorem probe_success_already_clustered_witness :
    ((on_charm_start sClusteredPeer envAllSuccess [] [] true).status
        = some UnitStatus.active ∧
      dictGet (on_charm_start sClusteredPeer envAllSuccess [] [] true).ownBag
          "clustered" = some (PValue.str "True")) ∧
    ((on_update_status true bagFalse .success).status = some UnitStatus.active ∧
      dictGet (on_update_status true bagFalse .success).ownBag "clustered"
        = some (PValue.str "True")) :=
  ⟨probe_success_already_clustered.1 sClusteredPeer envAllSuccess [] [] true rfl
      (by decide),
   probe_success_already_clustered.2 bagFalse⟩

/-- Claim C1 (counterexample): with one peer already marked clustered (so the
four initialization conditions do not all hold) and a succeeding probe, the
start evaluation reports Active — not a waiting state — refuting the claim's
"in every other case the member reports a waiting state (NOT_READY)". -/
theorem start_nonquorum_active_cx :
    init_condition sClusteredPeer = false ∧
      (on_charm_start sClusteredPeer envAllSuccess [] [] true).status
        = some UnitStatus.active ∧
      Cmd.microcloudInit
        ∉ (on_charm_start sClusteredPeer envAllSuccess [] [] true).commands := by
  decide

/-- Claim C1 (amended): a start evaluation issues `microcloud init --auto` if
and only if the four conditions hold (leader, own flag `"False"`, every other
peer `"False"`, planned units = known peers + 1); in every other case no
initialization command is issued, and — provided additionally no peer is
already marked clustered — the unit reports a waiting state.  (When a peer is
already marked clustered the handler instead probes cluster health and
reports according to the probe.) -/
theorem start_init_iff_quorum_gate (s : StartState) (env : StartEnv)
    (newC oldC : Config) (snapOk : Bool) :
    (Cmd.microcloudInit ∈ (on_charm_start s env newC oldC snapOk).commands
        ↔ init_condition s = true)
  ∧ (init_condition s = false → one_unit_clustered s.peerUnits = false →
        (on_charm_start s env newC oldC snapOk).status
            = some (.waiting (if s.isLeader then Msg.leaderWaitToBootstrap
                              else Msg.unitWaitToBootstrap))
          ∧ Cmd.microcloudInit
            ∉ (on_charm_start s env newC oldC snapOk).commands) := by
  obtain ⟨hc, hst, hb⟩ := on_charm_start_proj s env newC oldC snapOk
  constructor
  · rw [hc]
    constructor
    · intro hmem
      by_contra h2
      unfold on_charm_start_main at hmem
      by_cases h1 : one_unit_clustered s.peerUnits = true
      · rw [if_pos h1] at hmem
        cases henv : env.lxcClusterList <;> rw [henv] at hmem <;> simp at hmem
      · rw [if_neg h1, if_neg h2] at hmem
        by_cases hl : s.isLeader = true <;> simp [hl] at hmem
    · intro h2
      have h1 := init_cond_no_clustered s h2
      unfold on_charm_start_main
      rw [if_neg (by simp [h1]), if_pos h2]
      by_cases hr : (microcloud_init env).raised = true <;>
        simp [hr] <;> exact microcloud_init_mem env
  · intro h2 h1
    rw [hst, hc]
    unfold on_charm_start_main
    rw [if_neg (by simp [h1]), if_neg (by simp [h2])]
    by_cases hl : s.isLeader = true <;> simp [hl]

/-- Start-state in which the quorum gate fails (no peers visible yet of two
planned units) and no peer is marked clustered. -/
def sNotReady : StartState := ⟨[], bagFalse, false, 2⟩

theorem start_init_iff_quorum_gate_witness :
    (Cmd.microcloudInit
        ∈ (on_charm_start sNotReady envAllSuccess [] [] true).commands
      ↔ init_condition sNotReady = true)
    ∧ ((on_charm_start sNotReady envAllSuccess [] [] true).status
          = some (.waiting (if sNotReady.isLeader then Msg.leaderWaitToBootstrap
                            else Msg.unitWaitToBootstrap))
        ∧ Cmd.microcloudInit
          ∉ (on_charm_start sNotReady envAllSuccess [] [] true).commands) :=
  ⟨(start_init_iff_quorum_gate sNotReady envAllSuccess [] [] true).1,
   (start_init_iff_quorum_gate sNotReady envAllSuccess [] [] true).2
     (by decide) (by decide)⟩

/-- Start-state in which the four initialization conditions all hold: leader,
own flag `"False"`, single other peer `"False"`, two planned units. -/
def sInitReady : StartState := ⟨[(1, bagFalse)], bagFalse, true, 2⟩

/-- Environment in which `microcloud init --auto` exits non-zero. -/
def envInitFail : StartEnv := ⟨.success, .fail, .success⟩

/-- Claim C6 (counterexample): when the quorum gate passes and
`microcloud init --auto` fails, the handler reports blocked and returns
WITHOUT calling `event.defer()` — refuting the claim that the triggering
event is deferred and re-delivered. -/
theorem init_failure_not_deferred_cx :
    init_condition sInitReady = true ∧
      Cmd.microcloudInit
        ∈ (on_charm_start sInitReady envInitFail [] [] true).commands ∧
      (on_charm_start sInitReady envInitFail [] [] true).status
        = some (UnitStatus.blocked Msg.failedToInitialize) ∧
      (on_charm_start sInitReady envInitFail [] [] true).deferred = false := by
  decide

/-- Claim C6 (amended): when the initialization command is attempted and does
not succeed, the unit's own bag is left unchanged (so its `clustered` flag is
not set to `"True"`), a blocked error status is surfaced, and the handler
returns without deferring the start event (re-evaluation happens only through
subsequent triggers); stated for evaluations with no pending config change,
since the config-change delegation can defer independently. -/
theorem init_failure_blocked_no_defer (s : StartState) (env : StartEnv)
    (newC oldC : Config) (snapOk : Bool)
    (hcfg : config_changed newC oldC = [])
    (hcond : init_condition s = true)
    (hfail : env.microcloudInit ≠ CmdOutcome.success) :
    (on_charm_start s env newC oldC snapOk).status
        = some (.blocked .failedToInitialize)
      ∧ (on_charm_start s env newC oldC snapOk).ownBag = s.ownBag
      ∧ (on_charm_start s env newC oldC snapOk).deferred = false := by
  have h1 := init_cond_no_clustered s hcond
  have hr : (microcloud_init env).raised = true := by
    rw [microcloud_init_raised]
    cases henv : env.microcloudInit <;> simp_all
  unfold on_charm_start on_charm_start_main
  rw [hcfg]
  simp [h1, hcond, hr]

theorem init_failure_blocked_no_defer_witness :
    (on_charm_start sInitReady envInitFail [] [] true).status
        = some (UnitStatus.blocked Msg.failedToInitialize)
      ∧ (on_charm_start sInitReady envInitFail [] [] true).ownBag
        = sInitReady.ownBag
      ∧ (on_charm_start sInitReady envInitFail [] [] true).deferred = false :=
  init_failure_blocked_no_defer sInitReady envInitFail [] [] true rfl
    (by decide) (by decide)

/-- The faithful translation of the removal `try` block equals running the
planned steps strictly in order, stopping at the first failure. -/
theorem remove_phase_eq_seqRun (env : RemoveEnv) (ceph ovn : String) :
    remove_phase env ceph ovn = seqRun env (removal_steps ceph ovn) := by
  by_cases hc : ceph ≠ "" <;> by_cases ho : ovn ≠ "" <;>
    cases h1 : env.lxcClusterRemove <;> cases h2 : env.microcephRemove <;>
      cases h3 : env.microovnRemove <;> cases h4 : env.microcloudRemove <;>
        simp [remove_phase, seqRun, run_checked, envOf, removal_steps,
          hc, ho, h1, h2, h3, h4]

/-- `seqRun` issues a prefix of its planned list. -/
theorem seqRun_take (env : RemoveEnv) (l : List Cmd) :
    ∃ n, (seqRun env l).commands = l.take n := by
  induction l with
  | nil => exact ⟨0, rfl⟩
  | cons c rest ih =>
    cases h : envOf env c
    · obtain ⟨n, hn⟩ := ih
      exact ⟨n + 1, by simp [seqRun, h, hn]⟩
    · exact ⟨1, by simp [seqRun, h]⟩
    · exact ⟨1, by simp [seqRun, h]⟩

/-- `seqRun` either returns with the maintenance status it entered with, or
raises `RuntimeError` with a blocked status naming the failing command. -/
theorem seqRun_status_shape (env : RemoveEnv) (l : List Cmd) :
    ((seqRun env l).status = some (.maintenance .removingNode)
        ∧ (seqRun env l).outcome = .returned)
      ∨ ∃ c ∈ l, ((seqRun env l).status = some (.blocked (.failedToRun c))
            ∨ (seqRun env l).status = some (.blocked (.timeoutRunning c)))
          ∧ (seqRun env l).outcome = .raised .runtimeError := by
  induction l with
  | nil => exact Or.inl ⟨rfl, rfl⟩
  | cons c rest ih =>
    cases h : envOf env c
    · rcases ih with ⟨hs, ho⟩ | ⟨d, hd, hs, ho⟩
      · exact Or.inl ⟨by simp [seqRun, h, hs], by simp [seqRun, h, ho]⟩
      · exact Or.inr ⟨d, List.mem_cons_of_mem c hd,
          by simpa [seqRun, h] using hs, by simp [seqRun, h, ho]⟩
    · exact Or.inr ⟨c, List.mem_cons_self c rest, Or.inl (by simp [seqRun, h]),
        by simp [seqRun, h]⟩
    · exact Or.inr ⟨c, List.mem_cons_self c rest, Or.inr (by simp [seqRun, h]),
        by simp [seqRun, h]⟩

/-- The planned removal order never contains the workload-listing command. -/
theorem removal_steps_no_list (ceph ovn : String)
    (h : Cmd.lxcList ∈ removal_steps ceph ovn) : False := by
  by_cases h1 : ceph ≠ "" <;> by_cases h2 : ovn ≠ "" <;>
    simp [removal_steps, h1, h2] at h

/-- Claim C4 (confirmed): whenever the workload inventory lists an instance
whose location is the node being removed, `microcloud_remove` reports blocked
and issues none of the four removal commands, whatever the rest of the
environment looks like. -/
theorem remove_refused_when_instances_present (node : String)
    (parse : String → Option (List String)) (env : RemoveEnv)
    (ceph ovn : String) (code : Nat) (out : String) (locs : List String)
    (hb : env.listBehavior = .exited code out)
    (hp : parse out = some locs)
    (hocc : node ∈ locs) :
    microcloud_remove node parse env ceph ovn
      = ⟨[Cmd.lxcList], some (.blocked .containsInstances), .returned⟩ := by
  have hany : locs.any (fun loc => loc == node) = true := by
    rw [List.any_eq_true]
    exact ⟨node, hocc, by simp⟩
  unfold microcloud_remove
  rw [hb]
  simp [subprocess_run, hp, hany]

/-- Inventory listing succeeding with no instances anywhere. -/
def removeEnvOk : RemoveEnv := ⟨.exited 0 "[]", .success, .success, .success, .success⟩

/-- A parse oracle returning one instance located on node `n1`. -/
def parseSelf : String → Option (List String) := fun _ => some ["n1"]

theorem remove_refused_when_instances_present_witness :
    microcloud_remove "n1" parseSelf removeEnvOk "c" "o"
      = ⟨[Cmd.lxcList], some (.blocked .containsInstances), .returned⟩ :=
  remove_refused_when_instances_present "n1" parseSelf removeEnvOk "c" "o"
    0 "[]" ["n1"] rfl rfl (by decide)

/-- Claim C5 (confirmed): once the safety check passes, the member is removed
from the subsystems in the fixed order `lxc cluster remove`, then
`microceph cluster remove` when the stored microceph channel is truthy (the
subsystem was enabled), then `microovn cluster remove` when the stored
microovn channel is truthy, then `microcloud cluster remove`; the issued
commands are always a prefix of that order, and any step's failure or timeout
skips all remaining steps and raises with a blocked error status (no
compensation, no retry inside the evaluation). -/
theorem remove_fixed_order_abort_on_failure (node : String)
    (parse : String → Option (List String)) (env : RemoveEnv)
    (ceph ovn : String) (code : Nat) (out : String) (locs : List String)
    (hb : env.listBehavior = .exited code out)
    (hp : parse out = some locs)
    (hclear : locs.any (fun loc => loc == node) = false) :
    microcloud_remove node parse env ceph ovn
        = ⟨Cmd.lxcList :: (seqRun env (removal_steps ceph ovn)).commands,
           (seqRun env (removal_steps ceph ovn)).status,
           (seqRun env (removal_steps ceph ovn)).outcome⟩
      ∧ (∃ n, (seqRun env (removal_steps ceph ovn)).commands
            = (removal_steps ceph ovn).take n)
      ∧ (((seqRun env (removal_steps ceph ovn)).status
              = some (.maintenance .removingNode)
            ∧ (seqRun env (removal_steps ceph ovn)).outcome = .returned)
          ∨ ∃ c ∈ removal_steps ceph ovn,
              ((seqRun env (removal_steps ceph ovn)).status
                  = some (.blocked (.failedToRun c))
                ∨ (seqRun env (removal_steps ceph ovn)).status
                  = some (.blocked (.timeoutRunning c)))
                ∧ (seqRun env (removal_steps ceph ovn)).outcome
                  = .raised .runtimeError) := by
  refine ⟨?_, seqRun_take env _, seqRun_status_shape env _⟩
  unfold microcloud_remove
  rw [hb]
  simp [subprocess_run, hp, hclear, remove_phase_eq_seqRun]

/-- A parse oracle returning an empty instance inventory. -/
def parseEmpty : String → Option (List String) := fun _ => some []

theorem remove_fixed_order_abort_on_failure_witness :
    microcloud_remove "n1" parseEmpty removeEnvOk "c" ""
        = ⟨Cmd.lxcList :: (seqRun removeEnvOk (removal_steps "c" "")).commands,
           (seqRun removeEnvOk (removal_steps "c" "")).status,
           (seqRun removeEnvOk (removal_steps "c" "")).outcome⟩
      ∧ (∃ n, (seqRun removeEnvOk (removal_steps "c" "")).commands
            = (removal_steps "c" "").take n)
      ∧ (((seqRun removeEnvOk (removal_steps "c" "")).status
              = some (.maintenance .removingNode)
            ∧ (seqRun removeEnvOk (removal_steps "c" "")).outcome = .returned)
          ∨ ∃ c ∈ removal_steps "c" "",
              ((seqRun removeEnvOk (removal_steps "c" "")).status
                  = some (.blocked (.failedToRun c))
                ∨ (seqRun removeEnvOk (removal_steps "c" "")).status
                  = some (.blocked (.timeoutRunning c)))
                ∧ (seqRun removeEnvOk (removal_steps "c" "")).outcome
                  = .raised .runtimeError) :=
  remove_fixed_order_abort_on_failure "n1" parseEmpty removeEnvOk "c" ""
    0 "[]" [] rfl rfl rfl

/-- Claim C9 (confirmed): the workload-listing call of the removal safety
check runs without `check=True` and without a timeout, so it can never raise
`CalledProcessError` or `TimeoutExpired` — the two surrounding except branches
(the `failedToRemoveNode` blocked status and the `timeoutRunning lxcList`
blocked status) are unreachable; and when the listing fails, its empty
captured stdout reaches `json.loads`, whose error is not converted into any
blocked status and escapes both `microcloud_remove` and `_on_charm_stop`
(which catches only `RuntimeError`). -/
theorem remove_list_excepts_unreachable_json_propagates :
    (∀ (b : ProcBehavior) (code : Nat),
        subprocess_run false none b ≠ some (.raisedCalledProcessError code)
          ∧ subprocess_run false none b ≠ some .raisedTimeoutExpired)
  ∧ (∀ (node : String) (parse : String → Option (List String))
        (env : RemoveEnv) (ceph ovn : String),
        (microcloud_remove node parse env ceph ovn).status
            ≠ some (.blocked .failedToRemoveNode)
          ∧ (microcloud_remove node parse env ceph ovn).status
            ≠ some (.blocked (.timeoutRunning .lxcList)))
  ∧ (∀ (node : String) (parse : String → Option (List String))
        (env : RemoveEnv) (ceph ovn : String) (code : Nat) (bag : PeerBag),
        env.listBehavior = .exited code "" → parse "" = none →
        microcloud_remove node parse env ceph ovn
            = ⟨[Cmd.lxcList], none, .raised .jsonDecodeError⟩
          ∧ (dictGet bag "clustered" = some (.str "True") →
              (on_charm_stop true bag node parse env ceph ovn).exc
                = some .jsonDecodeError)) := by
  refine ⟨?_, ?_, ?_⟩
  · intro b code
    cases b <;> simp [subprocess_run]
  · intro node parse env ceph ovn
    unfold microcloud_remove
    cases hb : env.listBehavior with
    | runsPastDeadline => simp [subprocess_run]
    | exited code out =>
      cases hp : parse out with
      | none => simp [subprocess_run, hp]
      | some locs =>
        by_cases hmem : node ∈ locs
        · simp [subprocess_run, hp, hmem]
        · rcases seqRun_status_shape env (removal_steps ceph ovn) with
            ⟨hs, _⟩ | ⟨c, hcmem, hs, _⟩
          · simp [subprocess_run, hp, hmem, remove_phase_eq_seqRun, hs]
          · have hcl : c ≠ Cmd.lxcList := fun hh =>
              removal_steps_no_list ceph ovn (hh ▸ hcmem)
            rcases hs with hs | hs <;>
              simp [subprocess_run, hp, hmem, remove_phase_eq_seqRun, hs, hcl]
  · intro node parse env ceph ovn code bag hb hparse
    have hrem : microcloud_remove node parse env ceph ovn
        = ⟨[Cmd.lxcList], none, .raised .jsonDecodeError⟩ := by
      unfold microcloud_remove
      rw [hb]
      simp [subprocess_run, hparse]
    refine ⟨hrem, ?_⟩
    intro hbag
    have hget : get_peer_data_str true true bag "clustered" = "True" := by
      unfold get_peer_data_str
      simp [hbag]
    unfold on_charm_stop
    rw [if_pos hget, hrem]

/-- Inventory listing exiting non-zero with empty captured stdout. -/
def removeEnvListFails : RemoveEnv :=
  ⟨.exited 1 "", .success, .success, .success, .success⟩

/-- `json.loads` on invalid input (here the empty string) raises. -/
def parseNone : String → Option (List String) := fun _ => none

theorem remove_list_excepts_unreachable_json_propagates_witness :
    microcloud_remove "n1" parseNone removeEnvListFails "c" "o"
        = ⟨[Cmd.lxcList], none, .raised .jsonDecodeError⟩
      ∧ (on_charm_stop true bagTrue "n1" parseNone removeEnvListFails "c" "o").exc
        = some .jsonDecodeError :=
  ⟨(remove_list_excepts_unreachable_json_propagates.2.2 "n1" parseNone
      removeEnvListFails "c" "o" 1 bagTrue rfl rfl).1,
   (remove_list_excepts_unreachable_json_propagates.2.2 "n1" parseNone
      removeEnvListFails "c" "o" 1 bagTrue rfl rfl).2 (by decide)⟩

/-- A start evaluation leaves this unit's bag unchanged or writes
`clustered = "True"` into it; it never writes anything else. -/
theorem start_ownBag_cases (s : StartState) (env : StartEnv)
    (newC oldC : Config) (snapOk : Bool) :
    (on_charm_start s env newC oldC snapOk).ownBag = s.ownBag
      ∨ (on_charm_start s env newC oldC snapOk).ownBag
        = set_peer_data_str true true s.ownBag "clustered" "True" := by
  obtain ⟨_, _, hb⟩ := on_charm_start_proj s env newC oldC snapOk
  rw [hb]
  unfold on_charm_start_main
  by_cases h1 : one_unit_clustered s.peerUnits = true
  · rw [if_pos h1]
    cases env.lxcClusterList <;> simp
  · rw [if_neg h1]
    by_cases h2 : init_condition s = true
    · rw [if_pos h2]
      by_cases hr : (microcloud_init env).raised = true <;> simp [hr]
    · rw [if_neg h2]
      by_cases hl : s.isLeader = true <;> simp [hl]

/-- A status evaluation likewise writes at most `clustered = "True"`. -/
theorem update_ownBag_cases (hp : Bool) (bag : PeerBag) (env : CmdOutcome) :
    (on_update_status hp bag env).ownBag = bag
      ∨ (on_update_status hp bag env).ownBag
        = set_peer_data_str hp true bag "clustered" "True" := by
  cases env <;> simp [on_update_status]

/-- The joined handler never writes the bag. -/
theorem joined_ownBag (hp : Bool) (bag : PeerBag) (lead : Bool)
    (eu su : Nat) (env : CmdOutcome) :
    (on_cluster_relation_joined hp bag lead eu su env).ownBag = bag := by
  unfold on_cluster_relation_joined
  by_cases hg : (lead
      && decide (get_peer_data_str hp true bag "clustered" = "True")
      && eu != su) = true
  · rw [if_pos hg]
  · rw [if_neg hg]

/-- Any event other than `relation_created` preserves a `"True"` flag. -/
theorem stepOwnBag_preserves_true (bag : PeerBag) (e : Event)
    (he : e.isRelationCreated = false)
    (h : dictGet bag "clustered" = some (.str "True")) :
    dictGet (stepOwnBag bag e) "clustered" = some (.str "True") := by
  cases e with
  | relationCreated hp => simp [Event.isRelationCreated] at he
  | charmStart pu lead pl env nc oc ok =>
    rcases start_ownBag_cases ⟨pu, bag, lead, pl⟩ env nc oc ok with hc | hc <;>
      · show dictGet (on_charm_start ⟨pu, bag, lead, pl⟩ env nc oc ok).ownBag
            "clustered" = some (.str "True")
        rw [hc]
        first
        | exact h
        | rw [set_peer_noop true true bag "clustered" "True" h]; exact h
  | updateStatus hp env =>
    rcases update_ownBag_cases hp bag env with hc | hc <;>
      · show dictGet (on_update_status hp bag env).ownBag "clustered"
            = some (.str "True")
        rw [hc]
        first
        | exact h
        | rw [set_peer_noop hp true bag "clustered" "True" h]; exact h
  | relationJoined hp lead eu su env =>
    show dictGet (on_cluster_relation_joined hp bag lead eu su env).ownBag
        "clustered" = some (.str "True")
    rw [joined_ownBag hp bag lead eu su env]
    exact h
  | charmStop hp node parse env ceph ovn => exact h

/-- Claim C3 (confirmed): the only handler that can write `"False"` into this
unit's `clustered` flag is `_on_cluster_relation_created`; along every
sequence of the other handlers a flag that reads `"True"` stays `"True"`, so
the flag's transitions are monotone `unset → "False" → "True"`.  Juju
delivers the peer relation-created event once, when the relation is created
and before the flag has ever been written, so the hypotheses here express
the external scheduler's delivery order, not an extra assumption on the
charm. -/
theorem clustered_flag_monotone :
    (∀ (bag : PeerBag) (events : List Event),
        dictGet bag "clustered" = some (.str "True") →
        (∀ e ∈ events, e.isRelationCreated = false) →
        dictGet (events.foldl stepOwnBag bag) "clustered" = some (.str "True"))
  ∧ (∀ (bag : PeerBag) (e : Event), e.isRelationCreated = false →
        dictGet (stepOwnBag bag e) "clustered" = some (.str "False") →
        dictGet bag "clustered" = some (.str "False")) := by
  constructor
  · intro bag events
    induction events generalizing bag with
    | nil => intro h _; exact h
    | cons e rest ih =>
      intro h hall
      simp only [List.foldl_cons]
      exact ih (stepOwnBag bag e)
        (stepOwnBag_preserves_true bag e (hall e (by simp)) h)
        (fun x hx => hall x (by simp [hx]))
  · intro bag e he h
    cases e with
    | relationCreated hp => simp [Event.isRelationCreated] at he
    | charmStart pu lead pl env nc oc ok =>
      rcases start_ownBag_cases ⟨pu, bag, lead, pl⟩ env nc oc ok with hc | hc <;>
        · replace h : dictGet
              (on_charm_start ⟨pu, bag, lead, pl⟩ env nc oc ok).ownBag
              "clustered" = some (.str "False") := h
          rw [hc] at h
          first
          | exact h
          | rcases set_peer_false_inv true true bag "clustered" "True" h with
              hv | hv
            · exact absurd hv (by decide)
            · exact hv
    | updateStatus hp env =>
      rcases update_ownBag_cases hp bag env with hc | hc <;>
        · replace h : dictGet (on_update_status hp bag env).ownBag
              "clustered" = some (.str "False") := h
          rw [hc] at h
          first
          | exact h
          | rcases set_peer_false_inv hp true bag "clustered" "True" h with
              hv | hv
            · exact absurd hv (by decide)
            · exact hv
    | relationJoined hp lead eu su env =>
      replace h : dictGet
          (on_cluster_relation_joined hp bag lead eu su env).ownBag
          "clustered" = some (.str "False") := h
      rw [joined_ownBag hp bag lead eu su env] at h
      exact h
    | charmStop hp node parse env ceph ovn => exact h

theorem clustered_flag_monotone_witness :
    dictGet ([Event.updateStatus true CmdOutcome.fail].foldl stepOwnBag bagTrue)
        "clustered" = some (PValue.str "True")
      ∧ dictGet bagFalse "clustered" = some (PValue.str "False") :=
  ⟨clustered_flag_monotone.1 bagTrue [Event.updateStatus true CmdOutcome.fail]
      (by decide)
      (by
        intro e he
        rw [List.mem_singleton] at he
        subst he
        rfl),
   clustered_flag_monotone.2 bagFalse (Event.updateStatus true CmdOutcome.fail)
     rfl (by decide)⟩
